import Mathlib

/-
Verification of the Emergency Alert Dispatch subsystem
(src/src/services/emailService.ts of Hades1710/ThirdWave).

The TypeScript module is shallowly embedded below.  Platform effects are
made explicit parameters:
  * the outcome of the `fetch` call to the rich-notification backend is an
    oracle value of type `FetchOutcome` (network rejection, or an HTTP
    response with an `ok` flag and a flag telling whether `response.json()`
    parses);
  * the string produced by `new Date().toLocaleString()` is the parameter
    `nowStr` (the code renders the timestamp with the platform locale
    formatter, not with `toISOString`);
  * the JavaScript number-to-string interpolation of the score is modelled
    by `toString` on the rational score.
Which external collaborators were invoked, and with which data, is recorded
in the `DispatchResult` structure so that claims about "no network call
made" and "what was submitted" are statable.
-/

namespace EmailService

/-- Modelled from the spec: the `Contact.relationship` enum of the missing
`src/types` module (`enum\x7bparent, counselor, friend, ...\x7d`); `other`
stands for the further relationship kinds. -/
inductive Relationship where
  | parent
  | counselor
  | friend
  | other
  deriving DecidableEq

/-- Modelled from the spec: the `Contact` record of the missing `src/types`
module: an optional address string (the code accesses it as
`contact.email`) and a relationship. -/
structure Contact where
  email : Option String
  relationship : Relationship
  deriving DecidableEq

/-- Modelled from the spec: the `User` record of the missing `src/types`
module: identity, display name, and an ordered list of contacts. -/
structure User where
  id : String
  name : String
  contacts : List Contact
  deriving DecidableEq

/-- Whitespace test of the platform `trim`: space, tab, and line breaks. -/
def isWS (c : Char) : Bool :=
  c == ' ' || c == '\t' || c == '\n' || c == '\r'

/-- Drop leading and trailing whitespace from a character list. -/
def trimChars (l : List Char) : List Char :=
  ((l.dropWhile isWS).reverse.dropWhile isWS).reverse

/-- Model of JavaScript `String.prototype.trim`. -/
def jsTrim (s : String) : String :=
  ⟨trimChars s.data⟩

/-- Embeds the condition `contact.email && contact.email.trim() !== ''`:
the email field is present, truthy (non-empty), and non-blank after
trimming. -/
def emailNonBlank : Option String → Bool
  | none => false
  | some s => (s != "") && (jsTrim s != "")

/-- Embeds the default argument `relationships = ['counselor', 'parent']`
of `sendEmergencyAlert`. -/
def defaultRelationships : List Relationship :=
  [Relationship.counselor, Relationship.parent]

/-- Embeds the contact filter of `sendEmergencyAlert`:
`user.contacts.filter(c => relationships.includes(c.relationship) && c.email && c.email.trim() !== '')`. -/
def filterContacts (contacts : List Contact) (relationships : List Relationship) :
    List Contact :=
  contacts.filter (fun c => relationships.contains c.relationship && emailNonBlank c.email)

/-- Embeds the contact filter of `sendMIMENotification`, which keeps every
contact with a non-blank email and does not look at the relationship:
`user.contacts.filter(c => c.email && c.email.trim() !== '')`. -/
def validContacts (contacts : List Contact) : List Contact :=
  contacts.filter (fun c => emailNonBlank c.email)

/-- Embeds the JSON body `\x7buser, emotionScore, message, relationships\x7d`
submitted by `sendMIMENotification` to `POST /api/notify/emergency`. -/
structure MIMEPayload where
  user : User
  emotionScore : ℚ
  message : String
  relationships : Option (List Relationship)
  deriving DecidableEq

/-- Embeds the payload construction of `sendMIMENotification`: the user is
re-embedded with `validContacts` (filtered by non-blank email only). -/
def mimePayload (user : User) (emotionScore : ℚ) (message : String)
    (relationships : Option (List Relationship)) : MIMEPayload :=
  { user := { user with contacts := validContacts user.contacts }
    emotionScore := emotionScore
    message := message
    relationships := relationships }

/-- Oracle for one HTTP response of the backend: the `response.ok` flag and
whether `response.json()` parses. -/
structure FetchResult where
  ok : Bool
  jsonOk : Bool
  deriving DecidableEq

/-- Oracle for the whole `fetch` call: either the promise rejects (network
error) or a response arrives. -/
inductive FetchOutcome where
  | networkError
  | response (r : FetchResult)
  deriving DecidableEq

/-- Embeds `await fetch(...)`: a rejected promise becomes an error. -/
def fetchEmergency (net : FetchOutcome) : Except String FetchResult :=
  match net with
  | FetchOutcome.networkError => Except.error "network error"
  | FetchOutcome.response r => Except.ok r

/-- Embeds `await response.json()`: a malformed body becomes an error. -/
def responseJson (r : FetchResult) : Except String Unit :=
  if r.jsonOk then Except.ok () else Except.error "malformed body"

/-- Embeds the `try` block of `sendMIMENotification`: fetch the endpoint;
on a non-ok response read the error body and return `false`; otherwise read
the success body and return `true`.  Any step may throw. -/
def sendMIMETry (net : FetchOutcome) (_payload : MIMEPayload) : Except String Bool :=
  match fetchEmergency net with
  | Except.error e => Except.error e
  | Except.ok r =>
    if !r.ok then
      match responseJson r with
      | Except.error e => Except.error e
      | Except.ok _ => Except.ok false
    else
      match responseJson r with
      | Except.error e => Except.error e
      | Except.ok _ => Except.ok true

/-- Embeds `sendMIMENotification`: the `try` body wrapped in the `catch`
that logs the error and returns `false`. -/
def sendMIMENotification (net : FetchOutcome) (user : User) (emotionScore : ℚ)
    (message : String) (relationships : Option (List Relationship)) :
    Except String Bool :=
  match sendMIMETry net (mimePayload user emotionScore message relationships) with
  | Except.ok b => Except.ok b
  | Except.error _ => Except.ok false

/-- Derived characterisation of the rich-channel boolean outcome as a
function of the network oracle alone. -/
def mimeOk : FetchOutcome → Bool
  | FetchOutcome.networkError => false
  | FetchOutcome.response r => r.ok && r.jsonOk

/-- Embeds the severity ternary of `sendEmergencyAlert`:
`emotionScore >= 90 ? 'CRITICAL' : emotionScore >= 80 ? 'HIGH' : 'ELEVATED'`. -/
def severity (emotionScore : ℚ) : String :=
  if emotionScore ≥ 90 then "CRITICAL"
  else if emotionScore ≥ 80 then "HIGH"
  else "ELEVATED"

/-- Rank of a severity label, used to state monotonicity of the
classification (ELEVATED below HIGH below CRITICAL). -/
def tierRank : String → Nat
  | "CRITICAL" => 2
  | "HIGH" => 1
  | _ => 0

/-- Embeds the `SendEmailOptions` interface; `toAddrs` embeds its `to`
field (`to` is a reserved token in Lean). -/
structure SendEmailOptions where
  toAddrs : List String
  subject : String
  body : String
  deriving DecidableEq

/-- Embeds `sendEmail`: the mock transport always resolves `true` (the
`try` body cannot throw). -/
def sendEmail (_options : SendEmailOptions) : Bool :=
  true

/-- Embeds `contactsToAlert.map(contact => contact.email).filter(Boolean)`:
missing and empty-string emails are dropped by JavaScript truthiness. -/
def alertRecipients (contactsToAlert : List Contact) : List String :=
  (contactsToAlert.map Contact.email).filterMap (fun e =>
    match e with
    | some s => if s == "" then none else some s
    | none => none)

/-- Address of a contact, for stating that recipients are exactly the
eligible contacts' addresses. -/
def contactAddr (c : Contact) : String :=
  c.email.getD ""

/-- Embeds the subject template literal of the fallback email. -/
def alertSubject (sev userName : String) : String :=
  "🚨 " ++ sev ++ " ALERT: Emotional Support Needed for " ++ userName

def bodySeg1 : String :=
  "\n      <h2>🚨 Emergency Alert: High Emotional Distress Detected</h2>\n      <p><strong>"

def bodySeg2 : String :=
  "</strong> is experiencing significant emotional distress and may need immediate support.</p>\n      \n      <h3>Alert Details:</h3>\n      <ul>\n        <li><strong>Severity Level:</strong> "

def bodySeg3 : String :=
  "</li>\n        <li><strong>Distress Score:</strong> "

def bodySeg4 : String :=
  "/100</li>\n        <li><strong>Timestamp:</strong> "

def bodySeg5 : String :=
  "</li>\n        <li><strong>Message Content:</strong> \""

def bodySeg6 : String :=
  "\"</li>\n      </ul>\n      \n      <h3>🤝 Recommended Actions:</h3>\n      <ul>\n        <li>Reach out to "

def bodySeg7 : String :=
  " immediately via phone or text</li>\n        <li>Ask open-ended questions about their feelings</li>\n        <li>Listen actively and validate their emotions</li>\n        <li>Encourage professional help if needed</li>\n        <li>Follow up within 24 hours</li>\n      </ul>\n      \n      <h3>📞 Crisis Resources:</h3>\n      <ul>\n        <li><strong>National Suicide Prevention Lifeline:</strong> 988</li>\n        <li><strong>Crisis Text Line:</strong> Text HOME to 741741</li>\n      </ul>\n      \n      <hr>\n      <p><small>This is an automated message from the BrightSide Emotional Support Platform.</small></p>\n    "

/-- Embeds the body template literal of the fallback email, interpolating
the user name (twice), severity, score, the platform timestamp string from
`new Date().toLocaleString()`, and the message verbatim. -/
def alertBody (userName sev : String) (emotionScore : ℚ)
    (nowStr message : String) : String :=
  bodySeg1 ++ userName ++ bodySeg2 ++ sev ++ bodySeg3 ++ toString emotionScore ++
    bodySeg4 ++ nowStr ++ bodySeg5 ++ message ++ bodySeg6 ++ userName ++ bodySeg7

/-- Portion of the fallback body strictly before the timestamp slot. -/
def bodyPre (userName sev : String) (emotionScore : ℚ) : String :=
  bodySeg1 ++ userName ++ bodySeg2 ++ sev ++ bodySeg3 ++ toString emotionScore ++ bodySeg4

/-- Portion of the fallback body strictly after the timestamp slot. -/
def bodyPost (userName msg : String) : String :=
  bodySeg5 ++ msg ++ bodySeg6 ++ userName ++ bodySeg7

/-- Outcome of one `sendEmergencyAlert` call, instrumented with which
external collaborators were invoked and with which data. -/
structure DispatchResult where
  delivered : Bool
  mimeCalled : Bool
  mimeSubmitted : Option MIMEPayload
  emailCalled : Bool
  emailSubmitted : Option SendEmailOptions
  deriving DecidableEq

/-- Embeds the fallback branch of `sendEmergencyAlert`: compute severity,
build `emailOptions`, and call `sendEmail`. -/
def plainDispatch (nowStr : String) (user : User) (emotionScore : ℚ)
    (message : String) (contactsToAlert : List Contact) : DispatchResult :=
  let sev := severity emotionScore
  let opts : SendEmailOptions :=
    { toAddrs := alertRecipients contactsToAlert
      subject := alertSubject sev user.name
      body := alertBody user.name sev emotionScore nowStr message }
  { delivered := sendEmail opts
    mimeCalled := false
    mimeSubmitted := none
    emailCalled := true
    emailSubmitted := some opts }

/-- Embeds the `useMIME` branch of `sendEmergencyAlert`:
`return await sendMIMENotification(...)` inside a `try` whose `catch` falls
through to the plain-email fallback.  The fallback therefore runs only when
the awaited promise rejects. -/
def mimeDispatch (net : FetchOutcome) (user : User) (emotionScore : ℚ)
    (message : String) (relationships : List Relationship)
    (fallback : DispatchResult) : DispatchResult :=
  match sendMIMENotification net user emotionScore message (some relationships) with
  | Except.ok b =>
    { delivered := b
      mimeCalled := true
      mimeSubmitted := some (mimePayload user emotionScore message (some relationships))
      emailCalled := false
      emailSubmitted := none }
  | Except.error _ =>
    { fallback with
      mimeCalled := true
      mimeSubmitted := some (mimePayload user emotionScore message (some relationships)) }

/-- Embeds `sendEmergencyAlert`.  Optional arguments are passed as
`Option` values and resolved to the source defaults
(`relationships = ['counselor','parent']`, `useMIME = true`). -/
def sendEmergencyAlert (net : FetchOutcome) (nowStr : String) (user : User)
    (emotionScore : ℚ) (message : String)
    (relationshipsArg : Option (List Relationship)) (useMIMEArg : Option Bool) :
    DispatchResult :=
  let relationships := relationshipsArg.getD defaultRelationships
  let useMIME := useMIMEArg.getD true
  let contactsToAlert := filterContacts user.contacts relationships
  if contactsToAlert.length = 0 then
    { delivered := false
      mimeCalled := false
      mimeSubmitted := none
      emailCalled := false
      emailSubmitted := none }
  else if useMIME then
    mimeDispatch net user emotionScore message relationships
      (plainDispatch nowStr user emotionScore message contactsToAlert)
  else
    plainDispatch nowStr user emotionScore message contactsToAlert

/-- Sequence of `n` consecutive `sendEmergencyAlert` calls for the same
user within one window.  The function threads no state from one call to the
next (the module keeps no per-user counter), so each call is an independent
evaluation of the same expression. -/
def alertCallSequence (n : Nat) : List DispatchResult :=
  List.replicate n (sendEmergencyAlert (FetchOutcome.response ⟨true, true⟩)
    "10/11/2026, 8:00:00 PM" ⟨"u2", "Alice", [⟨some "c@x.com", Relationship.counselor⟩,
      ⟨some "f@x.com", Relationship.friend⟩]⟩ 95 "help" none none)

/-- Counselor contact with a valid address, as in the spec scenario A. -/
def ctrContact : Contact := ⟨some "c@x.com", Relationship.counselor⟩

/-- Friend contact with a valid address, as in the spec scenario A. -/
def friendContact : Contact := ⟨some "f@x.com", Relationship.friend⟩

/-- User with one counselor and one friend contact, both with addresses. -/
def userCF : User := ⟨"u2", "Alice", [ctrContact, friendContact]⟩

/-- User with no usable address: one contact has none, the other is blank. -/
def noEmailUser : User :=
  ⟨"u1", "Sam", [⟨none, Relationship.counselor⟩, ⟨some "  ", Relationship.parent⟩]⟩

/-- Oracle for a successful backend round trip. -/
def netOK : FetchOutcome := FetchOutcome.response ⟨true, true⟩

/-- Oracle for an HTTP error response (the rich channel reports failure). -/
def netHTTPError : FetchOutcome := FetchOutcome.response ⟨false, true⟩

/-- Oracle for a rejected fetch promise (network down). -/
def netDown : FetchOutcome := FetchOutcome.networkError

/-- Containment of one string inside another, as a concatenation split. -/
def ContainsStr (s sub : String) : Prop :=
  ∃ pre post, s = pre ++ sub ++ post

/-- Follows the spec words: an ISO-formatted timestamp opens with a
`YYYY-MM-DD` calendar date; this tests for such a date at the head of a
character list. -/
def specIsoDateAt : List Char → Bool
  | d1 :: d2 :: d3 :: d4 :: h1 :: d5 :: d6 :: h2 :: d7 :: d8 :: _ =>
    d1.isDigit && d2.isDigit && d3.isDigit && d4.isDigit && h1 == '-' &&
      d5.isDigit && d6.isDigit && h2 == '-' && d7.isDigit && d8.isDigit
  | _ => false

/-- Follows the spec words: whether a string holds an ISO-formatted
(`YYYY-MM-DD`) date anywhere. -/
def specHasISODate : List Char → Bool
  | [] => false
  | c :: t => specIsoDateAt (c :: t) || specHasISODate t

end EmailService

namespace EmailService

theorem mime_ok_eq (net : FetchOutcome) (user : User) (sc : ℚ) (m : String)
    (rels : Option (List Relationship)) :
    sendMIMENotification net user sc m rels = Except.ok (mimeOk net) := by
  cases net with
  | networkError => rfl
  | response r =>
    rcases r with ⟨ok, jsonOk⟩
    cases ok <;> cases jsonOk <;> rfl

theorem emailNonBlank_some {e : Option String} (h : emailNonBlank e = true) :
    ∃ s, e = some s ∧ jsTrim s ≠ "" := by
  cases e with
  | none => simp [emailNonBlank] at h
  | some s =>
    simp only [emailNonBlank, Bool.and_eq_true, bne_iff_ne, ne_eq] at h
    exact ⟨s, rfl, h.2⟩

theorem alert_empty_eq (net : FetchOutcome) (nowStr : String) (user : User)
    (sc : ℚ) (m : String) (relsArg : Option (List Relationship))
    (useMIMEArg : Option Bool)
    (h : filterContacts user.contacts (relsArg.getD defaultRelationships) = []) :
    sendEmergencyAlert net nowStr user sc m relsArg useMIMEArg =
      ⟨false, false, none, false, none⟩ := by
  unfold sendEmergencyAlert
  simp [h]

theorem alert_dispatch_eq (net : FetchOutcome) (nowStr : String) (user : User)
    (sc : ℚ) (m : String) (relsArg : Option (List Relationship))
    (useMIMEArg : Option Bool)
    (h : filterContacts user.contacts (relsArg.getD defaultRelationships) ≠ []) :
    sendEmergencyAlert net nowStr user sc m relsArg useMIMEArg =
      if useMIMEArg.getD true then
        ⟨mimeOk net, true,
          some (mimePayload user sc m (some (relsArg.getD defaultRelationships))),
          false, none⟩
      else
        plainDispatch nowStr user sc m
          (filterContacts user.contacts (relsArg.getD defaultRelationships)) := by
  unfold sendEmergencyAlert
  have hlen : ¬ (filterContacts user.contacts (relsArg.getD defaultRelationships)).length = 0 := by
    simpa [List.length_eq_zero] using h
  simp only [hlen, if_false]
  by_cases hm : useMIMEArg.getD true = true
  · simp only [hm, if_true]
    unfold mimeDispatch
    rw [mime_ok_eq]
  · simp only [Bool.not_eq_true] at hm
    simp only [hm, Bool.false_eq_true, if_false]

theorem alertRecipients_of_valid (l : List Contact)
    (h : ∀ c ∈ l, emailNonBlank c.email = true) :
    alertRecipients l = l.map contactAddr := by
  induction l with
  | nil => rfl
  | cons c t ih =>
    have hc := h c (List.mem_cons_self c t)
    obtain ⟨s, hs, _⟩ := emailNonBlank_some hc
    have hsne : (s == "") = false := by
      have : s ≠ "" := by
        intro he
        rw [he] at hs
        rw [hs] at hc
        simp [emailNonBlank] at hc
      simpa using this
    simp only [alertRecipients, List.map_cons, List.filterMap_cons, hs, hsne,
      Bool.false_eq_true, if_false]
    rw [show (t.map Contact.email).filterMap (fun e =>
        match e with
        | some s => if s == "" then none else some s
        | none => none) = alertRecipients t from rfl]
    rw [ih (fun c hc => h c (List.mem_cons_of_mem _ hc))]
    simp [contactAddr, hs]

theorem recipients_eq (cs : List Contact) (rels : List Relationship) :
    alertRecipients (filterContacts cs rels) = (filterContacts cs rels).map contactAddr := by
  apply alertRecipients_of_valid
  intro c hc
  have := (List.mem_filter.mp hc).2
  exact ((Bool.and_eq_true _ _).mp this).2

theorem alertBody_decomp (n sv : String) (sc : ℚ) (ts m : String) :
    alertBody n sv sc ts m = bodyPre n sv sc ++ ts ++ bodyPost n m := by
  simp [alertBody, bodyPre, bodyPost, String.append_assoc]

theorem alertBody_contains_message (n sv : String) (sc : ℚ) (ts m : String) :
    ContainsStr (alertBody n sv sc ts m) m :=
  ⟨bodyPre n sv sc ++ ts ++ bodySeg5, bodySeg6 ++ n ++ bodySeg7, by
    simp [alertBody, bodyPre, String.append_assoc]⟩

theorem alertBody_contains_score (n sv : String) (sc : ℚ) (ts m : String) :
    ContainsStr (alertBody n sv sc ts m) (toString sc) :=
  ⟨bodySeg1 ++ n ++ bodySeg2 ++ sv ++ bodySeg3,
   bodySeg4 ++ ts ++ bodySeg5 ++ m ++ bodySeg6 ++ n ++ bodySeg7, by
    simp [alertBody, String.append_assoc]⟩

theorem alertBody_contains_severity (n sv : String) (sc : ℚ) (ts m : String) :
    ContainsStr (alertBody n sv sc ts m) sv :=
  ⟨bodySeg1 ++ n ++ bodySeg2,
   bodySeg3 ++ toString sc ++ bodySeg4 ++ ts ++ bodySeg5 ++ m ++ bodySeg6 ++ n ++ bodySeg7, by
    simp [alertBody, String.append_assoc]⟩

theorem alertBody_contains_timestamp (n sv : String) (sc : ℚ) (ts m : String) :
    ContainsStr (alertBody n sv sc ts m) ts :=
  ⟨bodyPre n sv sc, bodyPost n m, alertBody_decomp n sv sc ts m⟩

theorem alertSubject_contains_severity (sv n : String) :
    ContainsStr (alertSubject sv n) sv :=
  ⟨"🚨 ", " ALERT: Emotional Support Needed for " ++ n, by
    simp [alertSubject, String.append_assoc]⟩

theorem alertSubject_contains_name (sv n : String) :
    ContainsStr (alertSubject sv n) n :=
  ⟨"🚨 " ++ sv ++ " ALERT: Emotional Support Needed for ", "", by
    simp [alertSubject, String.append_assoc, String.append_empty]⟩

/-- Claim C1, counterexample: `sendEmergencyAlert` keeps no per-user call
count, so the sixth consecutive call within one window still submits to the
rich channel (a network call is made) and reports success, instead of
returning a rate-limited failure without a network call. -/
theorem rateLimitSixthCallDispatches :
    (alertCallSequence 6)[5]? =
      some ⟨true, true,
        some (mimePayload userCF 95 "help" (some defaultRelationships)),
        false, none⟩ := by
  decide

/-- Claim C1, amended: `sendEmergencyAlert` applies no rate limit at all;
every call whose contact filtering is non-empty proceeds to dispatch on one
of the two channels, regardless of how many calls preceded it. -/
theorem rateLimitAbsent (net : FetchOutcome) (nowStr : String) (user : User)
    (sc : ℚ) (m : String) (relsArg : Option (List Relationship))
    (useMIMEArg : Option Bool)
    (h : filterContacts user.contacts (relsArg.getD defaultRelationships) ≠ []) :
    (sendEmergencyAlert net nowStr user sc m relsArg useMIMEArg).mimeCalled = true
    ∨ (sendEmergencyAlert net nowStr user sc m relsArg useMIMEArg).emailCalled = true := by
  rw [alert_dispatch_eq net nowStr user sc m relsArg useMIMEArg h]
  by_cases hm : useMIMEArg.getD true = true
  · rw [if_pos hm]
    left
    rfl
  · simp only [Bool.not_eq_true] at hm
    rw [hm]
    right
    simp [plainDispatch]

/-- Witness for the amended claim C1 at a concrete input. -/
theorem rateLimitAbsent_witness :
    (sendEmergencyAlert netOK "ts" userCF 95 "help" none none).mimeCalled = true
    ∨ (sendEmergencyAlert netOK "ts" userCF 95 "help" none none).emailCalled = true :=
  rateLimitAbsent netOK "ts" userCF 95 "help" none none (by decide)

/-- Claim C2, code bug: with an eligible contact and the rich channel
preferred, when the rich channel reports failure (HTTP error response) the
call returns `false` without ever invoking the plain channel; the
documented fallback does not happen because `return await
sendMIMENotification(...)` returns the `false` directly and the enclosing
`catch` only fires on a rejected promise, which `sendMIMENotification`
never produces. -/
theorem richFailureNoFallback :
    sendEmergencyAlert netHTTPError "ts" userCF 95 "I feel hopeless" none none =
      ⟨false, true,
        some (mimePayload userCF 95 "I feel hopeless" (some defaultRelationships)),
        false, none⟩ := by
  decide

/-- Claim C3, counterexample: the rich-channel payload embeds the friend
contact even though the requested roles are the default counselor and
parent set, because `sendMIMENotification` filters contacts only by
non-blank email, never by relationship. -/
theorem payloadKeepsNonRoleContact :
    (sendEmergencyAlert netOK "ts" userCF 95 "help" none none).mimeSubmitted =
      some (mimePayload userCF 95 "help" (some defaultRelationships))
    ∧ (mimePayload userCF 95 "help" (some defaultRelationships)).user.contacts =
        [ctrContact, friendContact]
    ∧ defaultRelationships.contains friendContact.relationship = false := by
  decide

/-- Claim C3, amended: the rich-channel payload embeds the user with
exactly the contacts whose address is non-blank after trimming, regardless
of relationship, together with the score, message, and roles; relationship
filtering is not applied to the embedded contact list. -/
theorem payloadEmbedsEmailFiltered (u : User) (sc : ℚ) (m : String)
    (rels : Option (List Relationship)) :
    (mimePayload u sc m rels).user.id = u.id
    ∧ (mimePayload u sc m rels).user.name = u.name
    ∧ (mimePayload u sc m rels).user.contacts = validContacts u.contacts
    ∧ (mimePayload u sc m rels).emotionScore = sc
    ∧ (mimePayload u sc m rels).message = m
    ∧ (mimePayload u sc m rels).relationships = rels
    ∧ (validContacts u.contacts).Sublist u.contacts
    ∧ (∀ c ∈ validContacts u.contacts, ∃ s, c.email = some s ∧ jsTrim s ≠ "")
    ∧ (∀ c ∈ u.contacts, emailNonBlank c.email = true → c ∈ validContacts u.contacts) := by
  refine ⟨rfl, rfl, rfl, rfl, rfl, rfl, List.filter_sublist u.contacts, ?_, ?_⟩
  · intro c hc
    simp only [validContacts] at hc
    exact emailNonBlank_some (List.mem_filter.mp hc).2
  · intro c hc h2
    simp only [validContacts]
    exact List.mem_filter.mpr ⟨hc, h2⟩

/-- Witness for the amended claim C3 at a concrete input. -/
theorem payloadEmbedsEmailFiltered_witness :
    friendContact ∈ validContacts userCF.contacts :=
  (payloadEmbedsEmailFiltered userCF 95 "help" none).2.2.2.2.2.2.2.2
    friendContact (by decide) (by decide)

/-- Claim C4, code bug: the free-text triggering message is interpolated
verbatim into the HTML body of the fallback email; no escaping is applied,
so HTML metacharacters from the message appear unchanged in the body. -/
theorem messageNotEscaped :
    ((sendEmergencyAlert netOK "10/11/2026, 8:00:00 PM" userCF 95
        "<script>window.alert(1)</script>" none (some false)).emailSubmitted.map
      SendEmailOptions.body) =
      some (alertBody userCF.name (severity 95) 95 "10/11/2026, 8:00:00 PM"
        "<script>window.alert(1)</script>")
    ∧ severity (95 : ℚ) = "CRITICAL"
    ∧ ContainsStr
        (alertBody userCF.name (severity 95) 95 "10/11/2026, 8:00:00 PM"
          "<script>window.alert(1)</script>")
        "<script>window.alert(1)</script>" := by
  refine ⟨?_, by decide, alertBody_contains_message _ _ _ _ _⟩
  rw [alert_dispatch_eq netOK "10/11/2026, 8:00:00 PM" userCF 95
    "<script>window.alert(1)</script>" none (some false) (by decide)]
  rfl

/-- Claim C5: when contact filtering yields no eligible contact, the call
returns a failed outcome immediately and invokes neither channel; nothing
reaches the network, so no backend rate-limit slot can be consumed. -/
theorem noEligibleContactsShortCircuit (net : FetchOutcome) (nowStr : String)
    (user : User) (sc : ℚ) (m : String) (relsArg : Option (List Relationship))
    (useMIMEArg : Option Bool)
    (h : filterContacts user.contacts (relsArg.getD defaultRelationships) = []) :
    sendEmergencyAlert net nowStr user sc m relsArg useMIMEArg =
      ⟨false, false, none, false, none⟩ :=
  alert_empty_eq net nowStr user sc m relsArg useMIMEArg h

/-- Witness for claim C5 at a concrete input. -/
theorem noEligibleContactsShortCircuit_witness :
    sendEmergencyAlert netOK "ts" noEmailUser 95 "help" none none =
      ⟨false, false, none, false, none⟩ :=
  noEligibleContactsShortCircuit netOK "ts" noEmailUser 95 "help" none none (by decide)

/-- Claim C6: contact filtering returns a sublist of the input (order
preserved) holding exactly the contacts whose relationship is in the
requested role set and whose address is non-blank after trimming, and the
default role set is counselor and parent. -/
theorem filterContactsSpec (cs : List Contact) (rels : List Relationship) :
    (filterContacts cs rels).Sublist cs
    ∧ (∀ c ∈ filterContacts cs rels,
        rels.contains c.relationship = true ∧ ∃ s, c.email = some s ∧ jsTrim s ≠ "")
    ∧ (∀ c ∈ cs, rels.contains c.relationship = true → emailNonBlank c.email = true →
        c ∈ filterContacts cs rels)
    ∧ defaultRelationships = [Relationship.counselor, Relationship.parent] := by
  refine ⟨List.filter_sublist cs, ?_, ?_, rfl⟩
  · intro c hc
    simp only [filterContacts] at hc
    have hp := (Bool.and_eq_true _ _).mp (List.mem_filter.mp hc).2
    exact ⟨hp.1, emailNonBlank_some hp.2⟩
  · intro c hc h1 h2
    simp only [filterContacts]
    refine List.mem_filter.mpr ⟨hc, ?_⟩
    rw [h1, h2]
    rfl

/-- Witness for claim C6 at a concrete input. -/
theorem filterContactsSpec_witness :
    ctrContact ∈ filterContacts userCF.contacts defaultRelationships :=
  (filterContactsSpec userCF.contacts defaultRelationships).2.2.1
    ctrContact (by decide) (by decide) (by decide)

/-- Claim C7: the severity classification is total, CRITICAL from 90 up,
HIGH from 80 up to below 90, ELEVATED below 80, and monotone in the score
with respect to the tier order. -/
theorem classifyTotalMonotone (s t : ℚ) :
    (90 ≤ s → severity s = "CRITICAL")
    ∧ (80 ≤ s ∧ s < 90 → severity s = "HIGH")
    ∧ (s < 80 → severity s = "ELEVATED")
    ∧ (s ≤ t → tierRank (severity s) ≤ tierRank (severity t)) := by
  refine ⟨fun h => ?_, fun h => ?_, fun h => ?_, fun h => ?_⟩
  · unfold severity
    rw [if_pos h]
  · unfold severity
    rw [if_neg (not_le.mpr h.2), if_pos h.1]
  · unfold severity
    rw [if_neg (not_le.mpr (by linarith)), if_neg (not_le.mpr h)]
  · unfold severity
    split_ifs <;> first | decide | linarith

/-- Witness for claim C7 at concrete scores, including the 90 boundary. -/
theorem classifyTotalMonotone_witness :
    severity 90 = "CRITICAL" ∧ severity 85 = "HIGH" ∧ severity 79 = "ELEVATED"
    ∧ tierRank (severity 80) ≤ tierRank (severity 95) :=
  ⟨(classifyTotalMonotone 90 90).1 (by norm_num),
   (classifyTotalMonotone 85 85).2.1 (by norm_num),
   (classifyTotalMonotone 79 79).2.2.1 (by norm_num),
   (classifyTotalMonotone 80 95).2.2.2 (by norm_num)⟩

set_option maxRecDepth 10000 in
/-- Claim C8, counterexample: the fallback body renders the timestamp with
the platform locale formatter (`new Date().toLocaleString()`, a string such
as `10/11/2026, 8:00:00 PM`), so at this input the generated body holds no
ISO-formatted date anywhere, refuting the ISO-formatted-timestamp clause. -/
theorem fallbackBodyNotISO :
    ((sendEmergencyAlert netOK "10/11/2026, 8:00:00 PM" userCF 95 "help" none
        (some false)).emailSubmitted.map (fun o => specHasISODate o.body.data)) =
      some false := by
  decide

/-- Claim C8, amended: the fallback email goes exactly to the eligible
contacts' addresses, the subject holds the severity and the user name, the
body holds the literal message, the rendered score, the severity label, and
the locale-formatted timestamp string supplied by the platform (not an
ISO-formatted one), and the output is byte-identical across calls with
identical inputs except for the timestamp slot. -/
theorem fallbackEmailSpec (net : FetchOutcome) (nowStr : String) (u : User)
    (sc : ℚ) (m : String) (relsArg : Option (List Relationship))
    (h : filterContacts u.contacts (relsArg.getD defaultRelationships) ≠ []) :
    (sendEmergencyAlert net nowStr u sc m relsArg (some false)).emailSubmitted =
      some ⟨(filterContacts u.contacts (relsArg.getD defaultRelationships)).map contactAddr,
            alertSubject (severity sc) u.name,
            alertBody u.name (severity sc) sc nowStr m⟩
    ∧ ContainsStr (alertSubject (severity sc) u.name) (severity sc)
    ∧ ContainsStr (alertSubject (severity sc) u.name) u.name
    ∧ ContainsStr (alertBody u.name (severity sc) sc nowStr m) m
    ∧ ContainsStr (alertBody u.name (severity sc) sc nowStr m) (toString sc)
    ∧ ContainsStr (alertBody u.name (severity sc) sc nowStr m) (severity sc)
    ∧ ContainsStr (alertBody u.name (severity sc) sc nowStr m) nowStr
    ∧ alertBody u.name (severity sc) sc nowStr m =
        bodyPre u.name (severity sc) sc ++ nowStr ++ bodyPost u.name m := by
  refine ⟨?_, alertSubject_contains_severity _ _, alertSubject_contains_name _ _,
    alertBody_contains_message _ _ _ _ _, alertBody_contains_score _ _ _ _ _,
    alertBody_contains_severity _ _ _ _ _, alertBody_contains_timestamp _ _ _ _ _,
    alertBody_decomp _ _ _ _ _⟩
  rw [alert_dispatch_eq net nowStr u sc m relsArg (some false) h]
  have hfalse : (some false).getD true = false := rfl
  rw [hfalse]
  simp only [Bool.false_eq_true, if_false, plainDispatch]
  rw [recipients_eq]

/-- Witness for the amended claim C8 at a concrete input. -/
theorem fallbackEmailSpec_witness :
    (sendEmergencyAlert netOK "ts2" userCF 95 "help" none (some false)).emailSubmitted =
      some ⟨(filterContacts userCF.contacts
              ((none : Option (List Relationship)).getD defaultRelationships)).map contactAddr,
            alertSubject (severity 95) userCF.name,
            alertBody userCF.name (severity 95) 95 "ts2" "help"⟩ :=
  (fallbackEmailSpec netOK "ts2" userCF 95 "help" none (by decide)).1

/-- Claim C9: the plain channel is never invoked on any call where the
rich channel was attempted, so in particular the rich attempt and the
fallback attempt never both deliver for one event. -/
theorem atMostOneDelivery (net : FetchOutcome) (nowStr : String) (user : User)
    (sc : ℚ) (m : String) (relsArg : Option (List Relationship))
    (useMIMEArg : Option Bool)
    (h : (sendEmergencyAlert net nowStr user sc m relsArg useMIMEArg).mimeCalled = true) :
    (sendEmergencyAlert net nowStr user sc m relsArg useMIMEArg).emailCalled = false := by
  by_cases hf : filterContacts user.contacts (relsArg.getD defaultRelationships) = []
  · rw [alert_empty_eq net nowStr user sc m relsArg useMIMEArg hf]
  · rw [alert_dispatch_eq net nowStr user sc m relsArg useMIMEArg hf]
    by_cases hm : useMIMEArg.getD true = true
    · rw [if_pos hm]
    · simp only [Bool.not_eq_true] at hm
      rw [alert_dispatch_eq net nowStr user sc m relsArg useMIMEArg hf, hm] at h
      simp [plainDispatch] at h

/-- Witness for claim C9 at a concrete input. -/
theorem atMostOneDelivery_witness :
    (sendEmergencyAlert netOK "ts" userCF 95 "help" none none).emailCalled = false :=
  atMostOneDelivery netOK "ts" userCF 95 "help" none none (by decide)

/-- Claim C10: `sendMIMENotification` never rejects; every network error,
non-ok response, or malformed body is converted into an `ok false` result,
and a `useMIME` call of the orchestrator with a non-empty eligible list
returns exactly the rich-channel boolean and never invokes `sendEmail`. -/
theorem mimeNeverRejects :
    (∀ net user sc m rels,
      sendMIMENotification net user sc m rels = Except.ok (mimeOk net))
    ∧ (∀ net nowStr user sc m relsArg,
        filterContacts user.contacts (relsArg.getD defaultRelationships) ≠ [] →
        sendEmergencyAlert net nowStr user sc m relsArg (some true) =
          ⟨mimeOk net, true,
            some (mimePayload user sc m (some (relsArg.getD defaultRelationships))),
            false, none⟩) := by
  refine ⟨mime_ok_eq, ?_⟩
  intro net nowStr user sc m relsArg h
  rw [alert_dispatch_eq net nowStr user sc m relsArg (some true) h]
  rfl

/-- Witness for claim C10 at concrete inputs, including a rejected fetch. -/
theorem mimeNeverRejects_witness :
    sendMIMENotification netDown userCF 95 "help" (some defaultRelationships) =
      Except.ok (mimeOk netDown)
    ∧ sendEmergencyAlert netDown "ts" userCF 95 "help" none (some true) =
        ⟨mimeOk netDown, true,
          some (mimePayload userCF 95 "help" (some defaultRelationships)),
          false, none⟩ :=
  ⟨mimeNeverRejects.1 netDown userCF 95 "help" (some defaultRelationships),
   mimeNeverRejects.2 netDown "ts" userCF 95 "help" none (by decide)⟩

end EmailService
